import Mathlib

/-!
Shallow embedding of the Ear-itation-Station video-generation pipeline
(`ai_video_generator.py`, `main.py`) and proofs about its orchestration core:
the asynchronous-task pollers, the stage pipeline with its partial-failure
policy, and the in-memory job registry.
-/

namespace EarStation

/-! ## Poller outcomes

Both pollers (`AIVideoGenerator._poll_wavespeed_completion` and
`AIVideoGenerator._poll_fal_completion`) loop, issuing one status query per
iteration, until they return a URL or raise.  We model one polling session as a
function of the scripted sequence of responses the remote endpoint would give,
one entry per query.  Raised exceptions become `PollOutcome` constructors:

* `success url` — the function returns `url`;
* `providerFailure msg` — the `status == 'failed'` branch raises
  `"... generation failed: ..."` carrying the provider's error field;
* `timeout` — the `while time.time() - start_time < max_wait_time` guard fails
  and the trailing `raise Exception("... timed out ...")` fires;
* `shapeError msg` — a success payload matches none of the known shapes
  (the explicit `"Could not find video URL"` raise in the Fal poller, and the
  `result_data['data']['outputs'][0]` key error in the Wavespeed poller);
* `badRequest msg` — the Fal poller's HTTP-400 branch raises
  `"Bad request for ..."`;
* `scriptEnded` — a model-only marker: the scripted response list was exhausted
  while the loop guard still held (the real loop would keep querying).
-/

inductive PollOutcome where
  | success (url : String)
  | providerFailure (msg : String)
  | timeout
  | shapeError (msg : String)
  | badRequest (msg : String)
  | scriptEnded
deriving DecidableEq, Repr

/-- Result of handling one polled response: terminate with an outcome, or
sleep the current interval and continue, with or without increasing the
interval (`poll_interval = min(poll_interval + 2, 15)` vs. leaving it). -/
inductive StepRes where
  | done (o : PollOutcome)
  | contIncr
  | contNoIncr
deriving DecidableEq, Repr

/-- Result of one polling session: the outcome, the sequence of sleep intervals
(in seconds, in order), and how many status queries were issued. -/
structure PollResult where
  outcome : PollOutcome
  sleeps : List Nat
  polls : Nat
deriving DecidableEq, Repr

/-- The shared skeleton of both polling loops: while `elapsed < maxWait`,
handle the next scripted response; every continue branch sleeps the current
interval (which is what advances `elapsed`), and the interval update is
`min (interval + 2) 15` in the increasing branches and unchanged otherwise.
Both Python pollers enter this loop with `poll_interval = 5`. -/
def pollLoop {ρ : Type} (step : ρ → StepRes) (maxWait : Nat) :
    Nat → Nat → List ρ → PollResult
  | elapsed, _interval, [] =>
    if elapsed < maxWait then ⟨.scriptEnded, [], 0⟩ else ⟨.timeout, [], 0⟩
  | elapsed, interval, r :: rs =>
    if elapsed < maxWait then
      match step r with
      | .done o => ⟨o, [], 1⟩
      | .contIncr =>
        let rest := pollLoop step maxWait (elapsed + interval) (min (interval + 2) 15) rs
        ⟨rest.outcome, interval :: rest.sleeps, rest.polls + 1⟩
      | .contNoIncr =>
        let rest := pollLoop step maxWait (elapsed + interval) interval rs
        ⟨rest.outcome, interval :: rest.sleeps, rest.polls + 1⟩
    else ⟨.timeout, [], 0⟩

/-! ## Wavespeed poller (`_poll_wavespeed_completion`, lines 307-351) -/

/-- Parsed fields of one JSON body returned by the Wavespeed result endpoint.
`status` is the top-level `'status'` key, `dataStatus` is `'data'.'status'`,
`error` is the top-level `'error'` key, and `output` is
`'data'.'outputs'[0]` when that path exists (otherwise reading it raises). -/
structure WsBody where
  status : Option String
  dataStatus : Option String
  error : Option String
  output : Option String
deriving DecidableEq, Repr

/-- One scripted Wavespeed poll response: either the `requests.get` /
`raise_for_status` raised a `RequestException`, or a JSON body came back. -/
inductive WsResp where
  | transportErr
  | ok (r : WsBody)
deriving DecidableEq, Repr

/-- Status normalization: `result_data.get('status', 'unknown')`, falling back
to `result_data.get('data', {}).get('status', 'unknown')` when the first
lookup yields `'unknown'`. -/
def wsEffStatus (r : WsBody) : String :=
  let s := r.status.getD "unknown"
  if s = "unknown" then r.dataStatus.getD "unknown" else s

/-- One iteration of the Wavespeed loop body (the dispatch on `status`). -/
def wsStep : WsResp → StepRes
  | .transportErr => .contNoIncr
  | .ok r =>
    let status := wsEffStatus r
    if status ∈ ["succeeded", "completed"] then
      match r.output with
      | some url => .done (.success url)
      | none => .done (.shapeError "missing data.outputs in result")
    else if status = "failed" then
      .done (.providerFailure (r.error.getD "Unknown error"))
    else if status ∈ ["starting", "processing", "pending", "running"] then
      .contIncr
    else
      .contNoIncr

/-- One Wavespeed polling session over a scripted response list
(`poll_interval` starts at 5, `max_wait_time` defaults to 300). -/
def wsPoll (maxWait : Nat) (script : List WsResp) : PollResult :=
  pollLoop wsStep maxWait 0 5 script

/-! ## Fal poller (`_poll_fal_completion`, lines 353-441) -/

/-- Fields of a result body in which the poller looks for the video URL, in
the fixed priority order `['video']['url']`, `['video_url']`,
`['output']['video']['url']`. -/
structure FalResult where
  videoUrl : Option String
  video_url : Option String
  outputVideoUrl : Option String
deriving DecidableEq, Repr

/-- The follow-up `requests.get(result_data['response_url'])`: it can itself
raise a `RequestException` (caught by the outer handler), or produce a body. -/
inductive FalFollowUp where
  | fetchErr
  | content (c : FalResult)
deriving DecidableEq, Repr

/-- Parsed fields of one JSON body from the Fal status endpoint:
`status`, `error`, the optional `response_url` (with the scripted behavior of
fetching it), and the same body reused for the fallback shape checks. -/
structure FalBody where
  status : Option String
  error : Option String
  responseUrl : Option FalFollowUp
  body : FalResult
deriving DecidableEq, Repr

/-- One scripted Fal poll response.  `transportErr` covers both a raised
`requests.get` and a non-400 error status surfaced by `raise_for_status`
(both are caught by `except requests.exceptions.RequestException`).
`badReq400` carries the parsed `detail` field of an HTTP-400 body (`none`
when the body could not be parsed as JSON) plus the raw response text used in
the raised message. -/
inductive FalResp where
  | transportErr
  | badReq400 (detail : Option String) (text : String)
  | ok (r : FalBody)
deriving DecidableEq, Repr

/-- The literal the 400-handler searches for inside the `detail` field. -/
def stillInProgressMsg : String := "Request is still in progress"

/-- Whether the first list starts the second (helper for substring search). -/
def beginsWith : List Char → List Char → Bool
  | [], _ => true
  | _ :: _, [] => false
  | a :: as, b :: bs => if a = b then beginsWith as bs else false

/-- Python's `needle in hay` substring test, on the character lists. -/
def containsSub (needle : List Char) : List Char → Bool
  | [] => beginsWith needle []
  | hay@(_ :: rest) => beginsWith needle hay || containsSub needle rest

/-- Priority-ordered extraction of the video URL from a result body; when no
known shape matches, the poller raises `"Could not find video URL ..."`. -/
def falExtract (c : FalResult) : PollOutcome :=
  match c.videoUrl with
  | some u => .success u
  | none =>
    match c.video_url with
    | some u => .success u
    | none =>
      match c.outputVideoUrl with
      | some u => .success u
      | none => .shapeError "Could not find video URL"

/-- One iteration of the Fal loop body. -/
def falStep : FalResp → StepRes
  | .transportErr => .contNoIncr
  | .badReq400 detail text =>
    if containsSub stillInProgressMsg.toList ((detail.getD "").toList) then
      .contIncr
    else
      .done (.badRequest ("Bad request: " ++ text))
  | .ok r =>
    let status := r.status.getD "unknown"
    if status ∈ ["completed", "COMPLETED"] then
      match r.responseUrl with
      | some .fetchErr => .contNoIncr
      | some (.content c) => .done (falExtract c)
      | none => .done (falExtract r.body)
    else if status = "failed" then
      .done (.providerFailure (r.error.getD "Unknown error"))
    else if status ∈ ["IN_QUEUE", "IN_PROGRESS", "queued", "in_progress", "processing"] then
      .contIncr
    else
      .contNoIncr

/-- One Fal polling session over a scripted response list. -/
def falPoll (maxWait : Nat) (script : List FalResp) : PollResult :=
  pollLoop falStep maxWait 0 5 script

/-- The status URL the Fal poller builds (lines 353-356): the `base_url`
parameter is accepted but never read, the URL is always the mmaudio-v2
endpoint built from the request id alone. -/
def falStatusUrl (requestId : String) (_baseUrl : String) : String :=
  "https://queue.fal.run/fal-ai/mmaudio-v2/requests/" ++ requestId ++ "/status"

/-- The base URL `generate_asmr_sound` passes to the poller (line 475). -/
def falAudioRequestsBase : String := "https://queue.fal.run/fal-ai/mmaudio-v2/requests/"

/-- The base URL `merge_video_clips` passes to the poller (line 543). -/
def falFfmpegRequestsBase : String := "https://queue.fal.run/fal-ai/ffmpeg-api/requests/"

/-! ## Scripting stage (`generate_detailed_video_prompts`, lines 152-263)

The OpenAI call itself is an external collaborator; we embed the parsing of
its response `content`: split on newlines, keep lines whose stripped form
starts with `'Scene '`, take the text after the first `':'`, strip whitespace
then surrounding `'"'` characters, and keep the first 3 scenes. -/

instance {ε α : Type} [DecidableEq ε] [DecidableEq α] : DecidableEq (Except ε α) :=
  fun x y =>
    match x, y with
    | .error a, .error b => if h : a = b then .isTrue (by rw [h]) else .isFalse (by simp [h])
    | .ok a, .ok b => if h : a = b then .isTrue (by rw [h]) else .isFalse (by simp [h])
    | .error _, .ok _ => .isFalse (by simp)
    | .ok _, .error _ => .isFalse (by simp)

/-- Raised Python exceptions, as the pipeline observes them. -/
inductive Err where
  | exc (msg : String)
  | indexError
deriving DecidableEq, Repr

/-- Drop every leading and trailing character satisfying `p` (the shape of
Python `strip`). -/
def stripWhile (p : Char → Bool) (l : List Char) : List Char :=
  ((l.dropWhile p).reverse.dropWhile p).reverse

/-- Python `s.strip()` on a character list. -/
def pyStrip (l : List Char) : List Char := stripWhile Char.isWhitespace l

/-- Python `s.split(c)` (single-character separator) on a character list. -/
def splitOnChar (c : Char) : List Char → List (List Char)
  | [] => [[]]
  | a :: as =>
    let r := splitOnChar c as
    if a = c then [] :: r
    else
      match r with
      | [] => [[a]]
      | h :: t => (a :: h) :: t

/-- Python `line.split(':', 1)[1]`: `none` when the line has no `':'` (in
which case the source's index raises), otherwise everything after the first
`':'`. -/
def afterChar (c : Char) : List Char → Option (List Char)
  | [] => none
  | a :: as => if a = c then some as else afterChar c as

/-- Handling of a single response line: `none` when the stripped line does not
start with `'Scene '`, otherwise the extracted description
(`line.split(':', 1)[1].strip().strip('"')`, or the index error the source
would raise on a colon-less scene line). -/
def parseSceneLine (line : List Char) : Option (Except Err String) :=
  if beginsWith "Scene ".toList (pyStrip line) then
    some (match afterChar ':' line with
      | none => .error .indexError
      | some rest => .ok ⟨stripWhile (· = '"') (pyStrip rest)⟩)
  else
    none

/-- The scene-collection loop over the response lines. -/
def parseScenes : List (List Char) → Except Err (List String)
  | [] => .ok []
  | l :: ls =>
    match parseSceneLine l with
    | none => parseScenes ls
    | some (.error e) => .error e
    | some (.ok d) => (parseScenes ls).map (d :: ·)

/-- The parsing performed by `generate_detailed_video_prompts`: strip the
content, split on newlines, collect scene lines, return the first 3. -/
def generate_detailed_video_prompts (content : String) : Except Err (List String) :=
  (parseScenes (splitOnChar '\n' (pyStrip content.toList))).map (List.take 3)

/-! ## Composition payload (`merge_video_clips`, lines 484-527) -/

/-- One keyframe of the FFmpeg compose payload. -/
structure Keyframe where
  url : String
  timestamp : Nat
  duration : Nat
deriving DecidableEq, Repr

/-- One track of the FFmpeg compose payload. -/
structure Track where
  id : String
  type : String
  keyframes : List Keyframe
deriving DecidableEq, Repr

/-- Python truthiness of an optional string (`None` and `''` are falsy). -/
def truthy : Option String → Bool
  | none => false
  | some s => !(s == "")

/-- The video keyframes: one per clip at `timestamp = i * 10`, `duration = 10`. -/
def videoKeyframesFrom (i : Nat) : List String → List Keyframe
  | [] => []
  | u :: rest => ⟨u, i * 10, 10⟩ :: videoKeyframesFrom (i + 1) rest

/-- The audio keyframes: one per clip whose sound URL is truthy
(`if sound_url:`), at the clip's own timestamp. -/
def audioKeyframesFrom (i : Nat) : List (Option String) → List Keyframe
  | [] => []
  | s :: rest =>
    let tail := audioKeyframesFrom (i + 1) rest
    match s with
    | some u => if u = "" then tail else ⟨u, i * 10, 10⟩ :: tail
    | none => tail

/-- The `tracks` array of the compose request: always the video track; the
audio track is appended only under `if sound_urls and any(sound_urls)` and
`if audio_keyframes`. -/
def mergeTracks (videoUrls : List String) (soundUrls : List (Option String)) :
    List Track :=
  let vtrack : Track := ⟨"1", "video", videoKeyframesFrom 0 videoUrls⟩
  if !soundUrls.isEmpty && soundUrls.any truthy then
    let ak := audioKeyframesFrom 0 soundUrls
    if !ak.isEmpty then [vtrack, ⟨"2", "audio", ak⟩] else [vtrack]
  else
    [vtrack]

/-- Whether a compose payload carries an audio track. -/
def hasAudioTrack (tracks : List Track) : Bool :=
  tracks.any (fun t => t.type == "audio")

/-! ## The job pipeline (`run_video_generation` in `main.py`, lines 260-348)

Remote collaborators are abstracted as outcome oracles: each field gives the
result the corresponding external call would produce when the pipeline issues
it (`.error` standing for a raised exception). -/

/-- Metadata of the generated idea (`VideoIdea` dataclass). -/
structure VideoIdea where
  caption : String
  idea : String
  environment : String
  sound : String
  status : String
deriving DecidableEq, Repr

/-- Scripted outcomes of the external calls one job would make. -/
structure Outcomes where
  idea : Except Err VideoIdea
  promptContent : Except Err String
  clip : Nat → Except Err String
  audio : Nat → Except Err String
  compose : Except Err String
  download : Except Err String

/-- Observable remote submissions made while a job runs. -/
inductive Event where
  | clipSubmit (idx : Nat)
  | audioSubmit (idx : Nat)
  | composeSubmit (tracks : List Track)
deriving DecidableEq, Repr

/-- The clip-synthesis loop (`generate_video_clips`, lines 265-305): one
remote task per scene, sequential, the first failure raising out of the
loop (fatal for the job). -/
def generateClipsFrom (clip : Nat → Except Err String) (i : Nat) :
    List String → Except Err (List String) × List Event
  | [] => (.ok [], [])
  | _scene :: rest =>
    match clip i with
    | .error e => (.error e, [.clipSubmit i])
    | .ok url =>
      let r := generateClipsFrom clip (i + 1) rest
      (r.1.map (url :: ·), .clipSubmit i :: r.2)

/-- The audio-synthesis loop (`main.py` lines 289-296): one remote task per
clip, sequential, each wrapped in `try/except` that degrades a failure to
`None` and continues. -/
def generateSoundsFrom (audio : Nat → Except Err String) (i : Nat) :
    List String → List (Option String) × List Event
  | [] => ([], [])
  | _url :: rest =>
    let r := generateSoundsFrom audio (i + 1) rest
    ((audio i).toOption :: r.1, .audioSubmit i :: r.2)

/-- The audio stage of `run_video_generation` (lines 286-298): the loop runs
only under `if include_sound and video_urls:`, otherwise
`sound_urls = [None] * len(video_urls)` and no audio task is submitted. -/
def soundsPair (includeSound : Bool) (audio : Nat → Except Err String)
    (videoUrls : List String) : List (Option String) × List Event :=
  if includeSound && !videoUrls.isEmpty then
    generateSoundsFrom audio 0 videoUrls
  else
    (List.replicate videoUrls.length none, [])

/-- Everything a completed job records. -/
structure PipelineResult where
  ideaRec : VideoIdea
  scenes : List String
  videoUrls : List String
  soundUrls : List (Option String)
  tracks : List Track
  finalVideoUrl : String
  filename : String
deriving DecidableEq, Repr

/-- The body of the `try` block of `run_video_generation`: stages in
dependency order, each fatal except the audio loop; alongside the result,
the list of remote submissions actually made. -/
def runCore (includeSound : Bool) (o : Outcomes) :
    Except Err PipelineResult × List Event :=
  match o.idea with
  | .error e => (.error e, [])
  | .ok idea =>
    match o.promptContent with
    | .error e => (.error e, [])
    | .ok content =>
      match generate_detailed_video_prompts content with
      | .error e => (.error e, [])
      | .ok scenes =>
        match generateClipsFrom o.clip 0 scenes with
        | (.error e, clipEvs) => (.error e, clipEvs)
        | (.ok videoUrls, clipEvs) =>
          let soundUrls := (soundsPair includeSound o.audio videoUrls).1
          let audioEvs := (soundsPair includeSound o.audio videoUrls).2
          let tracks := mergeTracks videoUrls soundUrls
          let evs := clipEvs ++ audioEvs ++ [Event.composeSubmit tracks]
          match o.compose with
          | .error e => (.error e, evs)
          | .ok finalUrl =>
            match o.download with
            | .error e => (.error e, evs)
            | .ok fname =>
              (.ok ⟨idea, scenes, videoUrls, soundUrls, tracks, finalUrl, fname⟩, evs)

/-- Job states as `main.py` writes them into `active_jobs[job_id]['status']`:
`'started'` at creation, `'processing'` on pipeline start, then
`'completed'` or `'failed'`. -/
inductive JobState where
  | started
  | processing
  | completed
  | failed
deriving DecidableEq, Repr

/-- Position of a state along `Created → Running → {Completed | Failed}`. -/
def stateRank : JobState → Nat
  | .started => 0
  | .processing => 1
  | .completed => 2
  | .failed => 2

/-- What one job's background run leaves behind: its terminal state, the
`error` field, the `result` field, the ordered sequence of values ever
written to its `status` field, and the remote submissions made. -/
structure JobOutcome where
  state : JobState
  error : Option Err
  result : Option PipelineResult
  stateWrites : List JobState
  events : List Event

/-- The observable effect of `run_video_generation` for one job: the single
`try/except` either runs every stage and marks the job `completed`, or the
first fatal exception marks it `failed` with the cause. -/
def run_video_generation (includeSound : Bool) (o : Outcomes) : JobOutcome :=
  match (runCore includeSound o).1 with
  | .ok r =>
    ⟨.completed, none, some r, [.started, .processing, .completed],
      (runCore includeSound o).2⟩
  | .error e =>
    ⟨.failed, some e, none, [.started, .processing, .failed],
      (runCore includeSound o).2⟩

/-! ## Job registry (`main.py`: `active_jobs`, `generate_video`, lines 79-127)

`generate_video` builds
`job_id = f"job_{datetime.now().strftime('%Y%m%d_%H%M%S')}_{len(active_jobs)}"`
and inserts a fresh record into the `active_jobs` dict.  We model the dict as
an association list (insertion order), the timestamp as an opaque string (the
`strftime` format always yields 15 characters), and `str(len(active_jobs))`
with an explicit decimal rendering. -/

/-- The decimal digit character for `d` (`chr(48 + d)`). -/
def digitChar (d : Nat) : Char := Char.ofNat (48 + d)

/-- Fuel-indexed decimal rendering; the fuel only forces termination and is
always sufficient when `n ≤ fuel`. -/
def natCharsAux (fuel : Nat) (n : Nat) : List Char :=
  match fuel with
  | 0 => [digitChar n]
  | fuel + 1 =>
    if n < 10 then [digitChar n]
    else natCharsAux fuel (n / 10) ++ [digitChar (n % 10)]

/-- The decimal digits of `n`, most significant first (Python `str(n)`). -/
def natChars (n : Nat) : List Char := natCharsAux n n

/-- Python `str(n)` for a natural number. -/
def natStr (n : Nat) : String := ⟨natChars n⟩

/-- The job identifier `f"job_{timestamp}_{count}"`. -/
def mkJobId (ts : String) (count : Nat) : String :=
  "job_" ++ ts ++ "_" ++ natStr count

/-- What `active_jobs[job_id]` holds for one job. -/
structure JobRecord where
  status : JobState
  progress : String
  createdAt : String
  result : Option PipelineResult
  error : Option Err
deriving DecidableEq, Repr

/-- The record `generate_video` installs at creation (lines 108-113). -/
def initRecord (ts : String) : JobRecord :=
  ⟨.started, "Initializing video generation...", ts, none, none⟩

/-- The process-wide `active_jobs` table. -/
structure Registry where
  jobs : List (String × JobRecord)
deriving DecidableEq, Repr

/-- Job submission: mint the id from the timestamp and the current table size
and insert a fresh record. -/
def createJob (ts : String) (reg : Registry) : String × Registry :=
  let id := mkJobId ts reg.jobs.length
  (id, ⟨reg.jobs ++ [(id, initRecord ts)]⟩)

/-- Association-list lookup by key (dict indexing). -/
def lookupRec : List (String × JobRecord) → String → Option JobRecord
  | [], _ => none
  | p :: t, id => if p.1 = id then some p.2 else lookupRec t id

/-- Reading one job's record (`active_jobs[job_id]`, or absent). -/
def getJob (reg : Registry) (id : String) : Option JobRecord :=
  lookupRec reg.jobs id

/-- In-place mutation of the entry at one key. -/
def mapUpdate (id : String) (f : JobRecord → JobRecord) :
    List (String × JobRecord) → List (String × JobRecord)
  | [] => []
  | p :: t => (if p.1 = id then (p.1, f p.2) else p) :: mapUpdate id f t

/-- Mutating one job's record in place (`active_jobs[job_id][...] = ...`). -/
def updateJob (reg : Registry) (id : String) (f : JobRecord → JobRecord) : Registry :=
  ⟨mapUpdate id f reg.jobs⟩

/-! ## Outcome classifiers and concrete instances used in the proofs -/

/-- The outcomes the specification admits as results of one polling session:
success, a provider-reported failure, or a timeout. -/
def claimedOutcome : PollOutcome → Bool
  | .success _ => true
  | .providerFailure _ => true
  | .timeout => true
  | _ => false

/-- Whether one handled response terminates only in a spec-admitted way. -/
def stepClaimed : StepRes → Bool
  | .done o => claimedOutcome o
  | .contIncr => true
  | .contNoIncr => true

/-- Whether one handled response continues the loop (is non-terminal). -/
def stepCont : StepRes → Bool
  | .done _ => false
  | .contIncr => true
  | .contNoIncr => true

/-- Whether an outcome is a provider-reported failure. -/
def isProviderFailure : PollOutcome → Bool
  | .providerFailure _ => true
  | _ => false

/-- Whether an event is an audio-synthesis submission. -/
def isAudioSubmit : Event → Bool
  | .audioSubmit _ => true
  | _ => false

/-- Whether an event is a clip-synthesis submission. -/
def isClipSubmit : Event → Bool
  | .clipSubmit _ => true
  | _ => false

/-- A fixed sample idea record used in concrete runs. -/
def sampleIdea : VideoIdea :=
  ⟨"sharp cuts", "a blue idea", "a bright studio", "soft slicing", "for production"⟩

/-- A text-generation response containing exactly three scene lines. -/
def threeSceneContent : String :=
  "Scene 1: \"a\"\nScene 2: \"b\"\nScene 3: \"c\""

/-- Concrete job outcomes: three clips succeed, audio synthesis fails for
clip 2 (index 1) only, composition and download succeed. -/
def oC1 : Outcomes where
  idea := .ok sampleIdea
  promptContent := .ok threeSceneContent
  clip := fun i => .ok ("v" ++ natStr i)
  audio := fun i => if i = 1 then .error (.exc "mmaudio down") else .ok ("a" ++ natStr i)
  compose := .ok "http://final"
  download := .ok "out.mp4"

/-- Concrete job outcomes: one clip, and its audio synthesis succeeds with the
empty-string URL (a non-absent but falsy reference). -/
def oC2 : Outcomes where
  idea := .ok sampleIdea
  promptContent := .ok "Scene 1: x"
  clip := fun _ => .ok "v0"
  audio := fun _ => .ok ""
  compose := .ok "http://final"
  download := .ok "out.mp4"

/-- Concrete job outcomes: the text-generation response contains no scene
lines at all, while the remaining providers behave normally (the clip and
audio oracles would fail if they were ever consulted). -/
def oC3 : Outcomes where
  idea := .ok sampleIdea
  promptContent := .ok "nothing scene-shaped here"
  clip := fun _ => .error (.exc "never submitted")
  audio := fun _ => .error (.exc "never submitted")
  compose := .ok "http://final"
  download := .ok "out.mp4"

/-- Concrete job outcomes for a run with sound disabled: the audio oracle
would fail if it were ever consulted. -/
def oC10 : Outcomes where
  idea := .ok sampleIdea
  promptContent := .ok threeSceneContent
  clip := fun i => .ok ("v" ++ natStr i)
  audio := fun _ => .error (.exc "must not be called")
  compose := .ok "http://final"
  download := .ok "out.mp4"

/-- A Fal script whose single response reports completion with a payload
matching none of the known result shapes. -/
def cexC4Script : List FalResp :=
  [.ok ⟨some "completed", none, some (.content ⟨none, none, none⟩), ⟨none, none, none⟩⟩]

/-- A Wavespeed script whose first response carries an unrecognized status,
followed by a recognized in-progress response and a success. -/
def cexC5Script : List WsResp :=
  [.ok ⟨some "weird", none, none, none⟩,
   .ok ⟨some "pending", none, none, none⟩,
   .ok ⟨some "completed", none, none, some "http://v"⟩]

/-- A Wavespeed script whose first poll fails at the transport level. -/
def cexC5ScriptTransport : List WsResp :=
  [.transportErr,
   .ok ⟨some "pending", none, none, none⟩,
   .ok ⟨some "completed", none, none, some "http://v"⟩]

/-- A registry mutation: mark the record failed (one of the mutations
`run_video_generation` performs). -/
def failJob : JobRecord → JobRecord :=
  fun r => { r with status := .failed, error := some (.exc "boom") }

/-! ### Helper lemmas about the registry model -/

theorem strData_append (a b : String) : (a ++ b).data = a.data ++ b.data := by
  cases a; cases b; rfl

theorem digitChar_fin_inj : ∀ d e : Fin 10, digitChar d.1 = digitChar e.1 → d = e := by
  decide

theorem digitChar_inj {d e : Nat} (hd : d < 10) (he : e < 10)
    (h : digitChar d = digitChar e) : d = e := by
  have := digitChar_fin_inj ⟨d, hd⟩ ⟨e, he⟩ h
  exact congrArg Fin.val this

theorem natCharsAux_congr :
    ∀ fuel1 fuel2 n, n ≤ fuel1 → n ≤ fuel2 →
      natCharsAux fuel1 n = natCharsAux fuel2 n := by
  intro fuel1
  induction fuel1 with
  | zero =>
    intro fuel2 n h1 h2
    have hn : n = 0 := by omega
    subst hn
    cases fuel2 <;> simp [natCharsAux]
  | succ f ih =>
    intro fuel2 n h1 h2
    cases fuel2 with
    | zero =>
      have hn : n = 0 := by omega
      subst hn
      simp [natCharsAux]
    | succ g =>
      simp only [natCharsAux]
      by_cases hn : n < 10
      · simp [hn]
      · simp only [hn, if_false]
        have : natCharsAux f (n / 10) = natCharsAux g (n / 10) :=
          ih g (n / 10) (by omega) (by omega)
        rw [this]

theorem natChars_small {n : Nat} (h : n < 10) : natChars n = [digitChar n] := by
  cases n with
  | zero => rfl
  | succ m => simp [natChars, natCharsAux, h]

theorem natChars_large {n : Nat} (h : ¬n < 10) :
    natChars n = natChars (n / 10) ++ [digitChar (n % 10)] := by
  obtain ⟨m, rfl⟩ : ∃ m, n = m + 1 := ⟨n - 1, by omega⟩
  simp only [natChars, natCharsAux, h, if_false]
  rw [natCharsAux_congr m (m + 1) ((m + 1) / 10) (by omega) (by omega)]
  rw [natCharsAux_congr (m + 1) ((m + 1) / 10) ((m + 1) / 10) (by omega) (by omega)]

theorem natChars_ne_nil (n : Nat) : natChars n ≠ [] := by
  by_cases h : n < 10
  · rw [natChars_small h]; simp
  · rw [natChars_large h]; simp

theorem natChars_inj : ∀ n m : Nat, natChars n = natChars m → n = m := by
  intro n
  induction n using Nat.strong_induction_on with
  | _ n ih =>
    intro m h
    by_cases hn : n < 10 <;> by_cases hm : m < 10
    · rw [natChars_small hn, natChars_small hm] at h
      exact digitChar_inj hn hm (List.cons.inj h).1
    · rw [natChars_small hn, natChars_large hm] at h
      have hlen := congrArg List.length h
      simp at hlen
      exact absurd hlen (natChars_ne_nil _)
    · rw [natChars_large hn, natChars_small hm] at h
      have hlen := congrArg List.length h
      simp at hlen
      exact absurd hlen (natChars_ne_nil _)
    · rw [natChars_large hn, natChars_large hm] at h
      obtain ⟨h3, h4⟩ := List.append_inj' h rfl
      have hmod : n % 10 = m % 10 :=
        digitChar_inj (Nat.mod_lt _ (by omega)) (Nat.mod_lt _ (by omega))
          (List.cons.inj h4).1
      have hdiv : n / 10 = m / 10 :=
        ih (n / 10) (Nat.div_lt_self (by omega) (by omega)) (m / 10) h3
      omega

theorem natStr_inj {n m : Nat} (h : natStr n = natStr m) : n = m :=
  natChars_inj n m (congrArg String.data h)

theorem mkJobId_inj {t1 t2 : String} (hlen : t1.length = t2.length)
    {n1 n2 : Nat} (h : mkJobId t1 n1 = mkJobId t2 n2) : t1 = t2 ∧ n1 = n2 := by
  have hd := congrArg String.data h
  simp only [mkJobId, strData_append] at hd
  rw [List.append_assoc, List.append_assoc, List.append_assoc, List.append_assoc] at hd
  obtain ⟨-, hd2⟩ := List.append_inj hd rfl
  have hlen' : t1.data.length = t2.data.length := hlen
  obtain ⟨ht, hd3⟩ := List.append_inj hd2 hlen'
  obtain ⟨-, hn⟩ := List.append_inj hd3 rfl
  exact ⟨String.ext ht, natStr_inj (String.ext hn)⟩

theorem getJob_updateJob_ne (reg : Registry) {id id' : String} (h : id ≠ id')
    (f : JobRecord → JobRecord) :
    getJob (updateJob reg id f) id' = getJob reg id' := by
  obtain ⟨l⟩ := reg
  simp only [getJob, updateJob]
  induction l with
  | nil => rfl
  | cons p t ih =>
    by_cases hp : p.1 = id
    · simp [mapUpdate, lookupRec, hp, h, ih]
    · by_cases hq : p.1 = id'
      · simp [mapUpdate, lookupRec, hq, Ne.symm h]
      · simp [mapUpdate, lookupRec, hp, hq, ih]

/-! ### Helper lemmas about the polling loop -/

theorem pollLoop_claimed {ρ : Type} (step : ρ → StepRes) (maxWait : Nat)
    (script : List ρ) :
    ∀ elapsed interval,
      (∀ r ∈ script, stepClaimed (step r) = true) →
      (pollLoop step maxWait elapsed interval script).outcome ≠ .scriptEnded →
      claimedOutcome (pollLoop step maxWait elapsed interval script).outcome = true := by
  induction script with
  | nil =>
    intro e i _ hnse
    by_cases h : e < maxWait
    · exact absurd (by simp [pollLoop, h]) hnse
    · simp [pollLoop, h, claimedOutcome]
  | cons r rs ih =>
    intro e i hb hnse
    by_cases h : e < maxWait
    · cases hs : step r with
      | done o =>
        have hbr := hb r (by simp)
        rw [hs] at hbr
        have hout : (pollLoop step maxWait e i (r :: rs)).outcome = o := by
          simp [pollLoop, h, hs]
        rw [hout]
        exact hbr
      | contIncr =>
        have hout : (pollLoop step maxWait e i (r :: rs)).outcome =
            (pollLoop step maxWait (e + i) (min (i + 2) 15) rs).outcome := by
          simp [pollLoop, h, hs]
        rw [hout] at hnse ⊢
        exact ih _ _ (fun x hx => hb x (by simp [hx])) hnse
      | contNoIncr =>
        have hout : (pollLoop step maxWait e i (r :: rs)).outcome =
            (pollLoop step maxWait (e + i) i rs).outcome := by
          simp [pollLoop, h, hs]
        rw [hout] at hnse ⊢
        exact ih _ _ (fun x hx => hb x (by simp [hx])) hnse
    · simp [pollLoop, h, claimedOutcome]

theorem pollLoop_cont {ρ : Type} (step : ρ → StepRes) (maxWait : Nat)
    (script : List ρ) :
    ∀ elapsed interval,
      (∀ r ∈ script, stepCont (step r) = true) →
      (pollLoop step maxWait elapsed interval script).outcome = .timeout ∨
      (pollLoop step maxWait elapsed interval script).outcome = .scriptEnded := by
  induction script with
  | nil =>
    intro e i _
    by_cases h : e < maxWait
    · right; simp [pollLoop, h]
    · left; simp [pollLoop, h]
  | cons r rs ih =>
    intro e i hb
    by_cases h : e < maxWait
    · cases hs : step r with
      | done o =>
        have hbr := hb r (by simp)
        rw [hs] at hbr
        exact absurd hbr (by simp [stepCont])
      | contIncr =>
        have hout : (pollLoop step maxWait e i (r :: rs)).outcome =
            (pollLoop step maxWait (e + i) (min (i + 2) 15) rs).outcome := by
          simp [pollLoop, h, hs]
        rw [hout]
        exact ih _ _ (fun x hx => hb x (by simp [hx]))
      | contNoIncr =>
        have hout : (pollLoop step maxWait e i (r :: rs)).outcome =
            (pollLoop step maxWait (e + i) i rs).outcome := by
          simp [pollLoop, h, hs]
        rw [hout]
        exact ih _ _ (fun x hx => hb x (by simp [hx]))
    · left; simp [pollLoop, h]

theorem pollLoop_sleeps {ρ : Type} (step : ρ → StepRes) (maxWait : Nat)
    (script : List ρ) :
    ∀ elapsed interval, 5 ≤ interval → interval ≤ 15 →
      List.Chain' (· ≤ ·) (pollLoop step maxWait elapsed interval script).sleeps ∧
      (∀ x ∈ (pollLoop step maxWait elapsed interval script).sleeps, 5 ≤ x ∧ x ≤ 15) ∧
      ((pollLoop step maxWait elapsed interval script).sleeps = [] ∨
        (pollLoop step maxWait elapsed interval script).sleeps.head? = some interval) := by
  induction script with
  | nil =>
    intro e i h5 h15
    by_cases h : e < maxWait <;> simp [pollLoop, h]
  | cons r rs ih =>
    intro e i h5 h15
    by_cases h : e < maxWait
    · cases hs : step r with
      | done o => simp [pollLoop, h, hs]
      | contIncr =>
        obtain ⟨hc, hbound, hhead⟩ :=
          ih (e + i) (min (i + 2) 15) (le_min (by omega) (by omega)) (min_le_right _ _)
        have heq : (pollLoop step maxWait e i (r :: rs)).sleeps =
            i :: (pollLoop step maxWait (e + i) (min (i + 2) 15) rs).sleeps := by
          simp [pollLoop, h, hs]
        rw [heq]
        refine ⟨?_, ?_, ?_⟩
        · rw [List.chain'_cons']
          refine ⟨?_, hc⟩
          intro b hbmem
          rcases hhead with hnil | hhd
          · rw [hnil] at hbmem; simp at hbmem
          · rw [hhd] at hbmem
            simp only [Option.mem_def, Option.some.injEq] at hbmem
            subst hbmem
            exact le_min (by omega) h15
        · intro x hx
          rcases List.mem_cons.mp hx with rfl | hx
          · exact ⟨h5, h15⟩
          · exact hbound x hx
        · right; rfl
      | contNoIncr =>
        obtain ⟨hc, hbound, hhead⟩ := ih (e + i) i h5 h15
        have heq : (pollLoop step maxWait e i (r :: rs)).sleeps =
            i :: (pollLoop step maxWait (e + i) i rs).sleeps := by
          simp [pollLoop, h, hs]
        rw [heq]
        refine ⟨?_, ?_, ?_⟩
        · rw [List.chain'_cons']
          refine ⟨?_, hc⟩
          intro b hbmem
          rcases hhead with hnil | hhd
          · rw [hnil] at hbmem; simp at hbmem
          · rw [hhd] at hbmem
            simp only [Option.mem_def, Option.some.injEq] at hbmem
            subst hbmem
            exact le_refl i
        · intro x hx
          rcases List.mem_cons.mp hx with rfl | hx
          · exact ⟨h5, h15⟩
          · exact hbound x hx
        · right; rfl
    · simp [pollLoop, h]

/-! ### Helper lemmas about the composition payload -/

theorem audioKeyframesFrom_nil_iff :
    ∀ (s : List (Option String)) (i : Nat),
      audioKeyframesFrom i s = [] ↔ s.any truthy = false := by
  intro s
  induction s with
  | nil => intro i; simp [audioKeyframesFrom]
  | cons a t ih =>
    intro i
    cases a with
    | none => simp [audioKeyframesFrom, truthy, ih]
    | some u =>
      by_cases hu : u = ""
      · subst hu; simp [audioKeyframesFrom, truthy, ih]
      · simp [audioKeyframesFrom, truthy, hu, ih]

theorem mergeTracks_no_audio {v : List String} {s : List (Option String)}
    (h : s.any truthy = false) :
    mergeTracks v s = [⟨"1", "video", videoKeyframesFrom 0 v⟩] := by
  simp [mergeTracks, h]

theorem mergeTracks_audio {v : List String} {s : List (Option String)}
    (h : s.any truthy = true) :
    mergeTracks v s =
      [⟨"1", "video", videoKeyframesFrom 0 v⟩,
       ⟨"2", "audio", audioKeyframesFrom 0 s⟩] := by
  have hne : s.isEmpty = false := by
    cases s with
    | nil => simp at h
    | cons a t => rfl
  have hkf : audioKeyframesFrom 0 s ≠ [] := by
    rw [ne_eq, audioKeyframesFrom_nil_iff]
    simp [h]
  simp [mergeTracks, h, hne, hkf]

theorem hasAudioTrack_mergeTracks (v : List String) (s : List (Option String)) :
    hasAudioTrack (mergeTracks v s) = s.any truthy := by
  by_cases h : s.any truthy = true
  · rw [mergeTracks_audio h, h]; rfl
  · have h' : s.any truthy = false := by simpa using h
    rw [mergeTracks_no_audio h', h']; rfl

theorem replicate_none_any (n : Nat) :
    (List.replicate n (none : Option String)).any truthy = false := by
  induction n with
  | zero => rfl
  | succ m ih => simp [List.replicate, truthy, ih]

/-! ### Helper lemmas about the pipeline stages -/

theorem generateSoundsFrom_length (audio : Nat → Except Err String) :
    ∀ (urls : List String) (i : Nat),
      (generateSoundsFrom audio i urls).1.length = urls.length := by
  intro urls
  induction urls with
  | nil => intro i; rfl
  | cons u t ih => intro i; simp [generateSoundsFrom, ih]

theorem generateSoundsFrom_get (audio : Nat → Except Err String) :
    ∀ (urls : List String) (i k : Nat), k < urls.length →
      (generateSoundsFrom audio i urls).1[k]? = some ((audio (i + k)).toOption) := by
  intro urls
  induction urls with
  | nil => intro i k h; simp at h
  | cons u t ih =>
    intro i k h
    cases k with
    | zero => simp [generateSoundsFrom]
    | succ k =>
      have hk : k < t.length := by simpa using h
      have := ih (i + 1) k hk
      have harg : i + 1 + k = i + (k + 1) := by omega
      rw [harg] at this
      simpa [generateSoundsFrom] using this

theorem soundsPair_length (inc : Bool) (audio : Nat → Except Err String)
    (urls : List String) : (soundsPair inc audio urls).1.length = urls.length := by
  unfold soundsPair
  split
  · exact generateSoundsFrom_length audio urls 0
  · simp

theorem generateClipsFrom_events (clip : Nat → Except Err String) :
    ∀ (scenes : List String) (i : Nat) (e : Event),
      e ∈ (generateClipsFrom clip i scenes).2 → isClipSubmit e = true := by
  intro scenes
  induction scenes with
  | nil => intro i e he; simp [generateClipsFrom] at he
  | cons s t ih =>
    intro i e he
    cases hc : clip i with
    | error err =>
      simp [generateClipsFrom, hc] at he
      subst he; rfl
    | ok url =>
      simp only [generateClipsFrom, hc, List.mem_cons] at he
      rcases he with rfl | he
      · rfl
      · exact ih (i + 1) e he

theorem runCore_ok (inc : Bool) {o : Outcomes} {idea : VideoIdea} {content : String}
    {scenes urls : List String} {cevs : List Event} {fu fn : String}
    (h1 : o.idea = .ok idea) (h2 : o.promptContent = .ok content)
    (h3 : generate_detailed_video_prompts content = .ok scenes)
    (h4 : generateClipsFrom o.clip 0 scenes = (.ok urls, cevs))
    (h5 : o.compose = .ok fu) (h6 : o.download = .ok fn) :
    runCore inc o =
      (.ok ⟨idea, scenes, urls, (soundsPair inc o.audio urls).1,
          mergeTracks urls (soundsPair inc o.audio urls).1, fu, fn⟩,
        cevs ++ (soundsPair inc o.audio urls).2 ++
          [Event.composeSubmit (mergeTracks urls (soundsPair inc o.audio urls).1)]) := by
  simp only [runCore, h1, h2, h3, h4, h5, h6]

theorem runCore_ok_inv {o : Outcomes} {inc : Bool} {r : PipelineResult}
    (h : (runCore inc o).1 = .ok r) :
    r.soundUrls = (soundsPair inc o.audio r.videoUrls).1 ∧
    r.tracks = mergeTracks r.videoUrls r.soundUrls ∧
    Event.composeSubmit r.tracks ∈ (runCore inc o).2 := by
  cases h1 : o.idea with
  | error e => simp [runCore, h1] at h
  | ok idea =>
  cases h2 : o.promptContent with
  | error e => simp [runCore, h1, h2] at h
  | ok content =>
  cases h3 : generate_detailed_video_prompts content with
  | error e => simp [runCore, h1, h2, h3] at h
  | ok scenes =>
  rcases h4 : generateClipsFrom o.clip 0 scenes with ⟨cres, cevs⟩
  cases cres with
  | error e => simp [runCore, h1, h2, h3, h4] at h
  | ok urls =>
  cases h5 : o.compose with
  | error e => simp [runCore, h1, h2, h3, h4, h5] at h
  | ok fu =>
  cases h6 : o.download with
  | error e => simp [runCore, h1, h2, h3, h4, h5, h6] at h
  | ok fn =>
  have heq := runCore_ok inc h1 h2 h3 h4 h5 h6
  rw [heq] at h ⊢
  simp only [Prod.fst] at h
  injection h with h'
  subst h'
  simp

/-! ### Sanity checks on concrete inputs -/

theorem sanity_natStr : natStr 210 = "210" := by decide

theorem sanity_mkJobId : mkJobId "20250101_120000" 7 = "job_20250101_120000_7" := by
  decide

theorem sanity_scene_parse : generate_detailed_video_prompts
    "Idea: \"x\"\nScene 1: \"first cut\"\nScene 2: second\nblah" =
    .ok ["first cut", "second"] := by decide

theorem sanity_scene_parse_empty :
    generate_detailed_video_prompts "no scenes at all" = .ok [] := by decide

theorem sanity_merge_falsy :
    mergeTracks ["v1"] [some ""] = [⟨"1", "video", [⟨"v1", 0, 10⟩]⟩] := by decide

theorem sanity_merge_audio : mergeTracks ["v1", "v2"] [none, some "a2"] =
    [⟨"1", "video", [⟨"v1", 0, 10⟩, ⟨"v2", 10, 10⟩]⟩,
     ⟨"2", "audio", [⟨"a2", 10, 10⟩]⟩] := by decide

theorem sanity_ws_failure :
    (wsPoll 300 [.ok ⟨some "failed", none, some "boom", none⟩]).outcome =
    .providerFailure "boom" := by decide

theorem sanity_fal_400_progress :
    (falPoll 300 [.badReq400 (some "Request is still in progress. Try later") "t",
      .ok ⟨some "COMPLETED", none, some (.content ⟨none, some "u2", none⟩),
        ⟨none, none, none⟩⟩]).outcome = .success "u2" := by decide

/-! ## The claims -/

/-- C1: if audio synthesis fails for any single clip (the audio oracle is
left completely unconstrained), the pipeline records `none` for that clip and
continues — with the other stages succeeding the job reaches `completed`,
never `failed` on account of the audio stage, and the stored audio-reference
list has, at every index, exactly that clip's audio-synthesis outcome. -/
theorem claim_C1_audio_failure_tolerated (o : Outcomes) (idea : VideoIdea)
    (content : String) (scenes urls : List String) (cevs : List Event)
    (fu fn : String)
    (h1 : o.idea = .ok idea) (h2 : o.promptContent = .ok content)
    (h3 : generate_detailed_video_prompts content = .ok scenes)
    (h4 : generateClipsFrom o.clip 0 scenes = (.ok urls, cevs))
    (h5 : urls ≠ [])
    (h6 : o.compose = .ok fu) (h7 : o.download = .ok fn) :
    (run_video_generation true o).state = .completed ∧
    (run_video_generation true o).error = none ∧
    Option.map PipelineResult.soundUrls (run_video_generation true o).result =
      some (generateSoundsFrom o.audio 0 urls).1 ∧
    (generateSoundsFrom o.audio 0 urls).1.length = urls.length ∧
    ∀ k, k < urls.length →
      (generateSoundsFrom o.audio 0 urls).1[k]? = some ((o.audio k).toOption) := by
  have hcore := runCore_ok true h1 h2 h3 h4 h6 h7
  have hne : urls.isEmpty = false := by
    cases urls with
    | nil => exact absurd rfl h5
    | cons a t => rfl
  have hsp : soundsPair true o.audio urls = generateSoundsFrom o.audio 0 urls := by
    simp [soundsPair, hne]
  refine ⟨?_, ?_, ?_, generateSoundsFrom_length o.audio urls 0, ?_⟩
  · simp [run_video_generation, hcore]
  · simp [run_video_generation, hcore]
  · simp [run_video_generation, hcore, hsp]
  · intro k hk
    have hget := generateSoundsFrom_get o.audio urls 0 k hk
    simpa using hget

/-- Witness for C1: a concrete three-clip job whose clip-2 audio synthesis
fails while clips 1 and 3 get audio; the job completes with the list
`[some "a0", none, some "a2"]`. -/
theorem claim_C1_witness :
    (run_video_generation true oC1).state = .completed ∧
    (run_video_generation true oC1).error = none ∧
    Option.map PipelineResult.soundUrls (run_video_generation true oC1).result =
      some (generateSoundsFrom oC1.audio 0 ["v0", "v1", "v2"]).1 ∧
    (generateSoundsFrom oC1.audio 0 ["v0", "v1", "v2"]).1.length = 3 ∧
    (generateSoundsFrom oC1.audio 0 ["v0", "v1", "v2"]).1 =
      [some "a0", none, some "a2"] := by
  have h := claim_C1_audio_failure_tolerated oC1 sampleIdea threeSceneContent
    ["a", "b", "c"] ["v0", "v1", "v2"]
    [.clipSubmit 0, .clipSubmit 1, .clipSubmit 2] "http://final" "out.mp4"
    rfl rfl (by decide) (by decide) (by decide) rfl rfl
  exact ⟨h.1, h.2.1, h.2.2.1, by decide, by decide⟩

/-- C2 counterexample: a completed job whose audio-reference list holds the
non-absent entry `some ""`, while the composition request carries no audio
track — refuting "audio track present iff at least one entry is non-None"
(the code tests Python truthiness, not absence). -/
theorem claim_C2_counterexample :
    (run_video_generation true oC2).state = .completed ∧
    Option.map (fun r => (r.soundUrls, hasAudioTrack r.tracks))
      (run_video_generation true oC2).result = some ([some ""], false) := by
  decide

/-- C2 (amended): for every job that completes, the audio-reference list has
exactly one entry per clip, the job's composition request was submitted, and
that request carries an audio track precisely when at least one entry is a
non-absent, non-empty reference; otherwise the request is the single video
track. -/
theorem claim_C2_audio_track_iff_truthy (inc : Bool) (o : Outcomes)
    (r : PipelineResult) (h : (runCore inc o).1 = .ok r) :
    r.soundUrls.length = r.videoUrls.length ∧
    Event.composeSubmit r.tracks ∈ (runCore inc o).2 ∧
    (hasAudioTrack r.tracks = true ↔ r.soundUrls.any truthy = true) ∧
    (r.soundUrls.any truthy = false →
      r.tracks = [⟨"1", "video", videoKeyframesFrom 0 r.videoUrls⟩]) := by
  obtain ⟨hs, ht, hmem⟩ := runCore_ok_inv h
  refine ⟨?_, hmem, ?_, ?_⟩
  · rw [hs]
    exact soundsPair_length inc o.audio r.videoUrls
  · rw [ht, hasAudioTrack_mergeTracks]
  · intro hfalse
    rw [ht, mergeTracks_no_audio hfalse]

/-- Witness for C2 (amended) at the concrete completed job of `oC2`. -/
theorem claim_C2_witness :
    (([some ""] : List (Option String)).length = (["v0"] : List String).length) ∧
    Event.composeSubmit [⟨"1", "video", [⟨"v0", 0, 10⟩]⟩] ∈ (runCore true oC2).2 ∧
    (hasAudioTrack [⟨"1", "video", [⟨"v0", 0, 10⟩]⟩] = true ↔
      ([some ""] : List (Option String)).any truthy = true) ∧
    (([some ""] : List (Option String)).any truthy = false →
      ([⟨"1", "video", [⟨"v0", 0, 10⟩]⟩] : List Track) =
        [⟨"1", "video", videoKeyframesFrom 0 ["v0"]⟩]) := by
  have h := claim_C2_audio_track_iff_truthy true oC2
    ⟨sampleIdea, ["x"], ["v0"], [some ""],
      [⟨"1", "video", [⟨"v0", 0, 10⟩]⟩], "http://final", "out.mp4"⟩
    (by decide)
  exact h

/-- C3 counterexample: with a text-generation response that parses to zero
scenes, the job does not fail with an input-validation error — no clip task
is submitted, yet the pipeline proceeds to submit a composition request with
an empty video keyframe list and the job completes. -/
theorem claim_C3_counterexample :
    (run_video_generation true oC3).state = .completed ∧
    (run_video_generation true oC3).state ≠ .failed ∧
    (run_video_generation true oC3).events.any isClipSubmit = false ∧
    (run_video_generation true oC3).events = [.composeSubmit [⟨"1", "video", []⟩]] := by
  decide

/-- C3 (amended): if the scripting stage parses fewer than 1 scene, no remote
clip-synthesis task is ever submitted, but the job does not transition to
`failed` on that account: the pipeline proceeds to submit a composition
request whose video track has no keyframes, and the job completes whenever
composition and download succeed. -/
theorem claim_C3_zero_scenes (inc : Bool) (o : Outcomes) (idea : VideoIdea)
    (content : String) (fu fn : String)
    (h1 : o.idea = .ok idea) (h2 : o.promptContent = .ok content)
    (h3 : generate_detailed_video_prompts content = .ok [])
    (h4 : o.compose = .ok fu) (h5 : o.download = .ok fn) :
    (run_video_generation inc o).events = [.composeSubmit [⟨"1", "video", []⟩]] ∧
    (run_video_generation inc o).events.any isClipSubmit = false ∧
    (run_video_generation inc o).state = .completed := by
  have h4' : generateClipsFrom o.clip 0 [] = (.ok [], []) := rfl
  have hcore := runCore_ok inc h1 h2 h3 h4' h4 h5
  have hsp : soundsPair inc o.audio [] = ([], []) := by
    simp [soundsPair]
  have hmt : mergeTracks [] [] = [⟨"1", "video", []⟩] := rfl
  rw [hsp] at hcore
  simp only [hmt] at hcore
  refine ⟨?_, ?_, ?_⟩
  · simp [run_video_generation, hcore]
  · simp [run_video_generation, hcore, isClipSubmit]
  · simp [run_video_generation, hcore]

/-- Witness for C3 (amended) at the concrete zero-scene job of `oC3`. -/
theorem claim_C3_witness :
    (run_video_generation false oC3).events = [.composeSubmit [⟨"1", "video", []⟩]] ∧
    (run_video_generation false oC3).events.any isClipSubmit = false ∧
    (run_video_generation false oC3).state = .completed :=
  claim_C3_zero_scenes false oC3 sampleIdea "nothing scene-shaped here"
    "http://final" "out.mp4" rfl rfl (by decide) rfl rfl

/-- C4 counterexample: a Fal polling session that observes `completed` with a
payload matching no known result shape terminates with the shape error — an
outcome that is neither a provider-reported failure nor a timeout, refuting
"these are the only two non-success outcomes". -/
theorem claim_C4_counterexample :
    (falPoll 300 cexC4Script).outcome = .shapeError "Could not find video URL" ∧
    claimedOutcome (falPoll 300 cexC4Script).outcome = false := by
  decide

/-- C4 (amended): provided no polled response terminates with a
response-shape or bad-request error (every reported success carries an
extractable payload), each polling session of either poller ends in success,
a provider-reported failure (carrying the provider's reason), or a timeout;
without that proviso a shape/bad-request error is also possible. -/
theorem claim_C4_nonsuccess_outcomes :
    (∀ (maxWait : Nat) (script : List WsResp),
      (∀ r ∈ script, stepClaimed (wsStep r) = true) →
      (wsPoll maxWait script).outcome ≠ .scriptEnded →
      claimedOutcome (wsPoll maxWait script).outcome = true) ∧
    (∀ (maxWait : Nat) (script : List FalResp),
      (∀ r ∈ script, stepClaimed (falStep r) = true) →
      (falPoll maxWait script).outcome ≠ .scriptEnded →
      claimedOutcome (falPoll maxWait script).outcome = true) :=
  ⟨fun maxWait script hb => pollLoop_claimed wsStep maxWait script 0 5 hb,
   fun maxWait script hb => pollLoop_claimed falStep maxWait script 0 5 hb⟩

/-- Witness for C4 (amended): a session observing a provider-reported
failure indeed ends in a spec-admitted outcome. -/
theorem claim_C4_witness :
    claimedOutcome
      (wsPoll 300 [.ok ⟨some "failed", some "boom", none, none⟩]).outcome = true :=
  claim_C4_nonsuccess_outcomes.1 300
    [.ok ⟨some "failed", some "boom", none, none⟩] (by decide) (by decide)

/-- C5 counterexample: after a first poll observing an unrecognized status
(or a transport-level failure), the interval is slept again unchanged — the
scripted sessions below sleep 5 then 5, not the strictly increased 5 then 7
the claim requires after every non-terminal poll. -/
theorem claim_C5_counterexample :
    (wsPoll 300 cexC5Script).sleeps = [5, 5] ∧
    ¬List.Chain' (· < ·) (wsPoll 300 cexC5Script).sleeps ∧
    (wsPoll 300 cexC5ScriptTransport).sleeps = [5, 5] := by
  have h55 : (wsPoll 300 cexC5Script).sleeps = [5, 5] := by decide
  refine ⟨h55, ?_, by decide⟩
  intro hch
  rw [h55] at hch
  exact absurd (List.chain'_cons.mp hch).1 (by omega)

/-- C5 (amended): within one polling session the wait interval starts at 5
seconds, never decreases, and never exceeds the 15-second cap (both pollers
reset it to 5 per session); it grows by 2 after a poll observing a
recognized in-progress status — in particular the scripted sequence Pending,
Pending, Succeeded yields success after exactly 3 polls with strictly
increasing sleeps 5, 7 — while unrecognized-status and transport-failure
polls leave it unchanged. -/
theorem claim_C5_backoff :
    (∀ (maxWait : Nat) (script : List WsResp),
      List.Chain' (· ≤ ·) (wsPoll maxWait script).sleeps ∧
      (∀ x ∈ (wsPoll maxWait script).sleeps, 5 ≤ x ∧ x ≤ 15) ∧
      ((wsPoll maxWait script).sleeps = [] ∨
        (wsPoll maxWait script).sleeps.head? = some 5)) ∧
    (∀ (maxWait : Nat) (script : List FalResp),
      List.Chain' (· ≤ ·) (falPoll maxWait script).sleeps ∧
      (∀ x ∈ (falPoll maxWait script).sleeps, 5 ≤ x ∧ x ≤ 15) ∧
      ((falPoll maxWait script).sleeps = [] ∨
        (falPoll maxWait script).sleeps.head? = some 5)) ∧
    wsPoll 300 [.ok ⟨some "pending", none, none, none⟩,
      .ok ⟨some "pending", none, none, none⟩,
      .ok ⟨some "completed", none, none, some "http://v"⟩] =
      ⟨.success "http://v", [5, 7], 3⟩ ∧
    falPoll 300 [.ok ⟨some "IN_QUEUE", none, none, ⟨none, none, none⟩⟩,
      .ok ⟨some "IN_PROGRESS", none, none, ⟨none, none, none⟩⟩,
      .ok ⟨some "completed", none, some (.content ⟨some "http://a", none, none⟩),
        ⟨none, none, none⟩⟩] =
      ⟨.success "http://a", [5, 7], 3⟩ := by
  refine ⟨?_, ?_, by decide, by decide⟩
  · intro maxWait script
    exact pollLoop_sleeps wsStep maxWait script 0 5 (by omega) (by omega)
  · intro maxWait script
    exact pollLoop_sleeps falStep maxWait script 0 5 (by omega) (by omega)

/-- C6: for every job, the sequence of values written to its registry
`status` field advances strictly along started → processing →
{completed | failed}: the write sequence is strictly rank-increasing, its
last write is the job's terminal state, and every non-final write is
non-terminal (so no write ever follows completed or failed). -/
theorem claim_C6_state_monotonic (inc : Bool) (o : Outcomes) :
    List.Chain' (fun a b => stateRank a < stateRank b)
      (run_video_generation inc o).stateWrites ∧
    (run_video_generation inc o).stateWrites.getLast? =
      some (run_video_generation inc o).state ∧
    ((run_video_generation inc o).state = .completed ∨
      (run_video_generation inc o).state = .failed) ∧
    (∀ s ∈ (run_video_generation inc o).stateWrites.dropLast, stateRank s < 2) := by
  cases h : (runCore inc o).1 with
  | ok r =>
    have hj : run_video_generation inc o =
        ⟨.completed, none, some r, [.started, .processing, .completed],
          (runCore inc o).2⟩ := by
      simp [run_video_generation, h]
    rw [hj]
    refine ⟨?_, rfl, Or.inl rfl, ?_⟩
    · exact List.chain'_cons.mpr ⟨by simp [stateRank],
        List.chain'_cons.mpr ⟨by simp [stateRank], List.chain'_singleton _⟩⟩
    · intro s hs
      simp only [List.dropLast, List.mem_cons, List.not_mem_nil, or_false] at hs
      rcases hs with rfl | rfl <;> simp [stateRank]
  | error e =>
    have hj : run_video_generation inc o =
        ⟨.failed, some e, none, [.started, .processing, .failed],
          (runCore inc o).2⟩ := by
      simp [run_video_generation, h]
    rw [hj]
    refine ⟨?_, rfl, Or.inr rfl, ?_⟩
    · exact List.chain'_cons.mpr ⟨by simp [stateRank],
        List.chain'_cons.mpr ⟨by simp [stateRank], List.chain'_singleton _⟩⟩
    · intro s hs
      simp only [List.dropLast, List.mem_cons, List.not_mem_nil, or_false] at hs
      rcases hs with rfl | rfl <;> simp [stateRank]

/-- C7: two submissions, even with identical inputs, receive distinct job
identifiers (the id embeds the strictly growing table size next to the
fixed-width timestamp) and independent records: mutating either job's record
leaves the other job's record unchanged. -/
theorem claim_C7_registry_isolation (reg : Registry) (ts1 ts2 : String)
    (hlen : ts1.length = ts2.length) :
    (createJob ts1 reg).1 ≠ (createJob ts2 (createJob ts1 reg).2).1 ∧
    ∀ f : JobRecord → JobRecord,
      (getJob (updateJob (createJob ts2 (createJob ts1 reg).2).2
          (createJob ts1 reg).1 f) (createJob ts2 (createJob ts1 reg).2).1 =
        getJob (createJob ts2 (createJob ts1 reg).2).2
          (createJob ts2 (createJob ts1 reg).2).1) ∧
      (getJob (updateJob (createJob ts2 (createJob ts1 reg).2).2
          (createJob ts2 (createJob ts1 reg).2).1 f) (createJob ts1 reg).1 =
        getJob (createJob ts2 (createJob ts1 reg).2).2 (createJob ts1 reg).1) := by
  have hne : (createJob ts1 reg).1 ≠ (createJob ts2 (createJob ts1 reg).2).1 := by
    intro h
    have hlen2 : (createJob ts1 reg).2.jobs.length = reg.jobs.length + 1 := by
      simp [createJob]
    have h' : mkJobId ts1 reg.jobs.length = mkJobId ts2 (reg.jobs.length + 1) := by
      simpa [createJob, hlen2] using h
    have := (mkJobId_inj hlen h').2
    omega
  exact ⟨hne, fun f =>
    ⟨getJob_updateJob_ne _ hne f, getJob_updateJob_ne _ (Ne.symm hne) f⟩⟩

/-- Witness for C7: two submissions in the same second get the ids
`job_20250101_120000_0` and `job_20250101_120000_1`, and failing one job
leaves the other's record untouched. -/
theorem claim_C7_witness :
    (createJob "20250101_120000" ⟨[]⟩).1 ≠
      (createJob "20250101_120000" (createJob "20250101_120000" ⟨[]⟩).2).1 ∧
    (getJob (updateJob (createJob "20250101_120000"
          (createJob "20250101_120000" ⟨[]⟩).2).2
        (createJob "20250101_120000" ⟨[]⟩).1 failJob)
        (createJob "20250101_120000" (createJob "20250101_120000" ⟨[]⟩).2).1 =
      getJob (createJob "20250101_120000" (createJob "20250101_120000" ⟨[]⟩).2).2
        (createJob "20250101_120000" (createJob "20250101_120000" ⟨[]⟩).2).1) ∧
    (getJob (updateJob (createJob "20250101_120000"
          (createJob "20250101_120000" ⟨[]⟩).2).2
        (createJob "20250101_120000" (createJob "20250101_120000" ⟨[]⟩).2).1 failJob)
        (createJob "20250101_120000" ⟨[]⟩).1 =
      getJob (createJob "20250101_120000" (createJob "20250101_120000" ⟨[]⟩).2).2
        (createJob "20250101_120000" ⟨[]⟩).1) := by
  have h := claim_C7_registry_isolation ⟨[]⟩ "20250101_120000" "20250101_120000" rfl
  exact ⟨h.1, (h.2 failJob).1, (h.2 failJob).2⟩

/-- C8: the Fal poller's status URL ignores its `base_url` parameter — for
every request id it equals the mmaudio-v2 status endpoint for that id, so
polling for the composition task (submitted against the ffmpeg-api queue)
still queries the mmaudio-v2 status endpoint and never the ffmpeg-api one. -/
theorem claim_C8_fal_status_url (requestId b1 b2 : String) :
    falStatusUrl requestId b1 = falStatusUrl requestId b2 ∧
    falStatusUrl requestId falFfmpegRequestsBase =
      falAudioRequestsBase ++ requestId ++ "/status" ∧
    falStatusUrl requestId falFfmpegRequestsBase ≠
      falFfmpegRequestsBase ++ requestId ++ "/status" := by
  refine ⟨rfl, rfl, ?_⟩
  intro h
  have hd := congrArg String.data h
  simp only [falStatusUrl, falFfmpegRequestsBase, strData_append,
    List.append_assoc] at hd
  have hlen :
      ("https://queue.fal.run/fal-ai/mmaudio-v2/requests/" : String).data.length =
      ("https://queue.fal.run/fal-ai/ffmpeg-api/requests/" : String).data.length := by
    decide
  obtain ⟨hpre, -⟩ := List.append_inj hd hlen
  exact absurd hpre (by decide)

/-- C9: only the exact lowercase `failed` counts as a provider-reported
terminal failure in the Fal poller; a session observing only the uppercase
`FAILED` status never produces a provider failure — it keeps polling in the
unrecognized-status branch and, once `max_wait` elapses, reports a timeout
(concretely, 60 such polls at the unchanged 5-second interval exhaust the
default 300-second budget). -/
theorem claim_C9_uppercase_failed (maxWait n : Nat) (err : Option String)
    (ru : Option FalFollowUp) (body : FalResult) :
    isProviderFailure
      (falPoll maxWait (List.replicate n (.ok ⟨some "FAILED", err, ru, body⟩))).outcome
      = false ∧
    ((falPoll maxWait (List.replicate n (.ok ⟨some "FAILED", err, ru, body⟩))).outcome
        = .timeout ∨
      (falPoll maxWait (List.replicate n (.ok ⟨some "FAILED", err, ru, body⟩))).outcome
        = .scriptEnded) ∧
    (falPoll 300 (List.replicate 60
        (.ok ⟨some "FAILED", none, none, ⟨none, none, none⟩⟩))).outcome = .timeout := by
  have hstep : falStep (.ok ⟨some "FAILED", err, ru, body⟩) = .contNoIncr := rfl
  have hcont : ∀ r ∈ List.replicate n (FalResp.ok ⟨some "FAILED", err, ru, body⟩),
      stepCont (falStep r) = true := by
    intro r hr
    rw [List.eq_of_mem_replicate hr, hstep]
    rfl
  have hdisj := pollLoop_cont falStep maxWait _ 0 5 hcont
  refine ⟨?_, hdisj, by decide⟩
  simp only [falPoll]
  rcases hdisj with h | h <;> rw [h] <;> rfl

/-- C10: with `include_sound = false` no audio-synthesis task is ever
submitted, the stored sound-reference list is exactly one `none` per clip,
and the composition request contains only the video track. -/
theorem claim_C10_sound_disabled (o : Outcomes) (idea : VideoIdea)
    (content : String) (scenes urls : List String) (cevs : List Event)
    (fu fn : String)
    (h1 : o.idea = .ok idea) (h2 : o.promptContent = .ok content)
    (h3 : generate_detailed_video_prompts content = .ok scenes)
    (h4 : generateClipsFrom o.clip 0 scenes = (.ok urls, cevs))
    (h5 : o.compose = .ok fu) (h6 : o.download = .ok fn) :
    (run_video_generation false o).state = .completed ∧
    (run_video_generation false o).events.any isAudioSubmit = false ∧
    Option.map PipelineResult.soundUrls (run_video_generation false o).result =
      some (List.replicate urls.length none) ∧
    Option.map PipelineResult.tracks (run_video_generation false o).result =
      some [⟨"1", "video", videoKeyframesFrom 0 urls⟩] := by
  have hcore := runCore_ok false h1 h2 h3 h4 h5 h6
  have hsp : soundsPair false o.audio urls = (List.replicate urls.length none, []) := by
    simp [soundsPair]
  have hmt : mergeTracks urls (List.replicate urls.length none) =
      [⟨"1", "video", videoKeyframesFrom 0 urls⟩] :=
    mergeTracks_no_audio (replicate_none_any urls.length)
  rw [hsp] at hcore
  simp only [hmt] at hcore
  have hcev : ∀ e ∈ cevs, isClipSubmit e = true := by
    intro e he
    have h4' : (generateClipsFrom o.clip 0 scenes).2 = cevs := congrArg Prod.snd h4
    exact generateClipsFrom_events o.clip scenes 0 e (h4' ▸ he)
  refine ⟨?_, ?_, ?_, ?_⟩
  · simp [run_video_generation, hcore]
  · have hev : (run_video_generation false o).events =
        cevs ++ [Event.composeSubmit [⟨"1", "video", videoKeyframesFrom 0 urls⟩]] := by
      simp [run_video_generation, hcore]
    rw [hev, List.any_append]
    have hc : cevs.any isAudioSubmit = false := by
      rw [List.any_eq_false]
      intro e he
      have := hcev e he
      cases e with
      | clipSubmit k => simp [isAudioSubmit]
      | audioSubmit k => simp [isClipSubmit] at this
      | composeSubmit t => simp [isClipSubmit] at this
    simp [hc, isAudioSubmit]
  · simp [run_video_generation, hcore]
  · simp [run_video_generation, hcore]

/-- Witness for C10: a concrete three-clip job submitted with sound disabled
completes with `[none, none, none]` and a video-only composition request. -/
theorem claim_C10_witness :
    (run_video_generation false oC10).state = .completed ∧
    (run_video_generation false oC10).events.any isAudioSubmit = false ∧
    Option.map PipelineResult.soundUrls (run_video_generation false oC10).result =
      some (List.replicate 3 none) ∧
    Option.map PipelineResult.tracks (run_video_generation false oC10).result =
      some [⟨"1", "video", videoKeyframesFrom 0 ["v0", "v1", "v2"]⟩] := by
  have h := claim_C10_sound_disabled oC10 sampleIdea threeSceneContent
    ["a", "b", "c"] ["v0", "v1", "v2"]
    [.clipSubmit 0, .clipSubmit 1, .clipSubmit 2] "http://final" "out.mp4"
    rfl rfl (by decide) (by decide) rfl rfl
  exact ⟨h.1, h.2.1, h.2.2.1, h.2.2.2⟩

end EarStation
